import Mathlib

/-!
Shallow embedding of `src/imperative_shell/readwise.py`.

The repository's single function `get_list_of_all_articles` issues sequential
GET requests against a paginated listing endpoint, follows the server-supplied
`nextPageCursor`, accumulates `ReadwiseItem` records parsed from each page's
`results` field, and returns either the full list or `None` on an error
response or a body lacking `results`.

The embedding models the server as a finite list of `Response` values: the
i-th list element is the response to the i-th request the loop issues.  The
loop is structural recursion on that list, threading the Python locals
(`next_page_cursor`, `results`) as arguments.  Outcomes distinguish the
Python return value (`success` for a list, `failure` for `None`), an escaping
exception (`raised`), and the loop requesting a page beyond the supplied
responses (`needsMoreResponses`), which stands for the real code continuing
to loop against further server answers.
-/

namespace Readwise

/-- The `ReadwiseItem` dataclass: `id : str`, `url : str`, `title : str | None`. -/
structure ReadwiseItem where
  id : String
  url : String
  title : Option String
deriving DecidableEq, Repr

/-- One element of the JSON `results` array, with each field optional so that
a missing `id`/`url` key can be modelled.  Python reads `title` with
`item.get("title", None)`, which yields `None` both when the key is absent
and when it is present with JSON null, so a single `Option` layer is
faithful for `title`. -/
structure Entry where
  id : Option String
  url : Option String
  title : Option String
deriving DecidableEq, Repr

/-- A parsed JSON response body, restricted to the fields the code reads.
`results = none` models the `results` key being absent.
`nextPageCursor`: outer `Option` is key presence, inner `Option` is
JSON null (`none`) versus a string value. -/
structure JsonBody where
  results : Option (List Entry)
  nextPageCursor : Option (Option String)
deriving DecidableEq, Repr

/-- One HTTP response: the httpx `is_error` flag and the body.
`body = none` models a body that is not valid JSON, on which
`response.json()` raises. -/
structure Response where
  is_error : Bool
  body : Option JsonBody
deriving DecidableEq, Repr

/-- Python exceptions that can escape the function. -/
inductive PyError where
  | jsonDecodeError
  | keyError
deriving DecidableEq, Repr

/-- Outcome of a run of `get_list_of_all_articles`:
`success items` for a returned list, `failure` for a returned `None`,
`raised e` for an exception escaping the function, and
`needsMoreResponses` when the loop issues a request beyond the supplied
response list (the code would keep looping). -/
inductive FetchResult where
  | success (items : List ReadwiseItem)
  | failure
  | raised (e : PyError)
  | needsMoreResponses
deriving DecidableEq, Repr

/-- One request the client sends: the `Authorization` header value and the
`pageCursor` query parameter (`none` when the parameter is omitted, which
the code does exactly when `next_page_cursor is None`). -/
structure Request where
  auth : String
  pageCursor : Option String
deriving DecidableEq, Repr

/-- Constructing `ReadwiseItem(item["id"], item["url"], item.get("title", None))`:
subscript lookups raise `KeyError` when the key is absent. -/
def parseEntry (e : Entry) : Except PyError ReadwiseItem :=
  match e.id with
  | none => .error .keyError
  | some i =>
    match e.url with
    | none => .error .keyError
    | some u => .ok ⟨i, u, e.title⟩

/-- The list comprehension over `json_response["results"]`, evaluated left to
right, raising at the first entry whose lookup fails. -/
def parseEntries : List Entry → Except PyError (List ReadwiseItem)
  | [] => .ok []
  | e :: es =>
    match parseEntry e with
    | .error err => .error err
    | .ok item =>
      match parseEntries es with
      | .error err => .error err
      | .ok items => .ok (item :: items)

/-- The `while not parsed_all_results` loop.  Arguments: remaining server
responses, the `next_page_cursor` local, the `results` accumulator.
Returns the outcome together with the sequence of requests issued (a
request is recorded even when no response is left to answer it).

Mirrors the source order: `is_error` check, `response.json()`, the
`"results" not in json_response` check, the pagination handling (which
updates the cursor and the `parsed_all_results` flag only when the
`nextPageCursor` key is present), the item comprehension, and the extend.
The `if parsed_items is None` guard in the source is dead code (a list
comprehension is never `None`) and adds no branch here. -/
def fetchLoop (key : String) :
    List Response → Option String → List ReadwiseItem → FetchResult × List Request
  | [], next_page_cursor, _ =>
    (.needsMoreResponses, [⟨"Token " ++ key, next_page_cursor⟩])
  | r :: rs, next_page_cursor, results =>
    let req : Request := ⟨"Token " ++ key, next_page_cursor⟩
    if r.is_error then (.failure, [req])
    else
      match r.body with
      | none => (.raised .jsonDecodeError, [req])
      | some b =>
        match b.results with
        | none => (.failure, [req])
        | some entries =>
          let st : Option String × Bool :=
            match b.nextPageCursor with
            | none => (next_page_cursor, false)
            | some v =>
              match v with
              | none => (none, true)
              | some s => (some s, s == "")
          match parseEntries entries with
          | .error err => (.raised err, [req])
          | .ok items =>
            if st.2 then (.success (results ++ items), [req])
            else
              let rec_result := fetchLoop key rs st.1 (results ++ items)
              (rec_result.1, req :: rec_result.2)

/-- The function `get_list_of_all_articles(READWISE_API_KEY)`, run against a
given finite list of server responses.  Initial state: empty accumulator,
`next_page_cursor = None`. -/
def get_list_of_all_articles (key : String) (rs : List Response) :
    FetchResult × List Request :=
  fetchLoop key rs none []

/-- A response that a loop iteration processes without stopping: success
status, valid JSON body, `results` present and parseable, and a
`nextPageCursor` that is either absent (the code quirk: the flag stays
false) or present with a non-empty string value. -/
def pageContinues (r : Response) : Bool :=
  !r.is_error &&
  match r.body with
  | none => false
  | some b =>
    match b.results with
    | none => false
    | some entries =>
      (match parseEntries entries with
       | .ok _ => true
       | .error _ => false) &&
      match b.nextPageCursor with
      | none => true
      | some none => false
      | some (some s) => !(s == "")

/-- A response with a non-success status or a parsed body lacking `results`. -/
def isBad (r : Response) : Bool :=
  r.is_error ||
  match r.body with
  | none => false
  | some b => b.results.isNone

/-- The items a successfully processed page contributes. -/
def pageItems (r : Response) : List ReadwiseItem :=
  match r.body with
  | none => []
  | some b =>
    match b.results with
    | none => []
    | some entries =>
      match parseEntries entries with
      | .ok items => items
      | .error _ => []

/-- Concatenation of the items of a list of pages, in page order. -/
def pagesItems (rs : List Response) : List ReadwiseItem :=
  (rs.map pageItems).flatten

/-- How one response updates the `next_page_cursor` local: a present
`nextPageCursor` key overwrites it with the supplied value (null becoming
Python `None`), an absent key leaves it unchanged. -/
def cursorStep (c : Option String) (r : Response) : Option String :=
  match r.body with
  | none => c
  | some b =>
    match b.nextPageCursor with
    | none => c
    | some v => v

/-- The `nextPageCursor` value most recently supplied by the server across a
list of responses, starting from `init`; a response whose body has no
`nextPageCursor` key leaves the value unchanged. -/
def lastSupplied (init : Option String) (rs : List Response) : Option String :=
  rs.foldl cursorStep init

/-- A terminal page: success status, `results` present and parseable, and
`nextPageCursor` present with a null or empty-string value. -/
def terminalPage (r : Response) : Bool :=
  !r.is_error &&
  match r.body with
  | none => false
  | some b =>
    match b.results with
    | none => false
    | some entries =>
      (match parseEntries entries with
       | .ok _ => true
       | .error _ => false) &&
      match b.nextPageCursor with
      | none => false
      | some none => true
      | some (some s) => s == ""

/-- A response that ends the loop in its own iteration by one of the three
conditions of the claim: non-success status, parsed body lacking
`results`, or `nextPageCursor` present with null or empty-string value. -/
def stops (r : Response) : Bool :=
  r.is_error ||
  match r.body with
  | none => false
  | some b =>
    b.results.isNone ||
      match b.nextPageCursor with
      | none => false
      | some none => true
      | some (some s) => s == ""

/-- One loop iteration on a page that does not stop the loop: the request
with the current cursor is recorded, the cursor advances by `cursorStep`,
and the page's items are appended to the accumulator. -/
lemma fetchLoop_cons_continue (key : String) (r : Response) (rs : List Response)
    (c : Option String) (acc : List ReadwiseItem) (h : pageContinues r = true) :
    fetchLoop key (r :: rs) c acc =
      ((fetchLoop key rs (cursorStep c r) (acc ++ pageItems r)).1,
        ⟨"Token " ++ key, c⟩ :: (fetchLoop key rs (cursorStep c r) (acc ++ pageItems r)).2) := by
  obtain ⟨err, body⟩ := r
  cases err with
  | true => simp [pageContinues] at h
  | false =>
    cases body with
    | none => simp [pageContinues] at h
    | some b =>
      obtain ⟨res, cur⟩ := b
      cases res with
      | none => simp [pageContinues] at h
      | some entries =>
        cases hp : parseEntries entries with
        | error e => simp [pageContinues, hp] at h
        | ok items =>
          cases cur with
          | none =>
            simp [fetchLoop, hp, cursorStep, pageItems]
          | some v =>
            cases v with
            | none => simp [pageContinues, hp] at h
            | some s =>
              have hs : (s == "") = false := by
                simp [pageContinues, hp] at h
                simpa using h
              simp [fetchLoop, hp, hs, cursorStep, pageItems]

/-- One loop iteration on a terminal page: the page's items are appended and
the loop returns the accumulator, ignoring any further responses. -/
lemma fetchLoop_terminal (key : String) (last : Response) (rest : List Response)
    (c : Option String) (acc : List ReadwiseItem) (h : terminalPage last = true) :
    fetchLoop key (last :: rest) c acc =
      (.success (acc ++ pageItems last), [⟨"Token " ++ key, c⟩]) := by
  obtain ⟨err, body⟩ := last
  cases err with
  | true => simp [terminalPage] at h
  | false =>
    cases body with
    | none => simp [terminalPage] at h
    | some b =>
      obtain ⟨res, cur⟩ := b
      cases res with
      | none => simp [terminalPage] at h
      | some entries =>
        cases hp : parseEntries entries with
        | error e => simp [terminalPage, hp] at h
        | ok items =>
          cases cur with
          | none => simp [terminalPage, hp] at h
          | some v =>
            cases v with
            | none => simp [fetchLoop, hp, pageItems]
            | some s =>
              have hs : s = "" := by
                simp [terminalPage, hp] at h
                simpa using h
              subst hs
              simp [fetchLoop, hp, pageItems]

/-- One loop iteration on a response with a non-success status or a body
lacking `results` returns `None` at once. -/
lemma fetchLoop_bad (key : String) (bad : Response) (rest : List Response)
    (c : Option String) (acc : List ReadwiseItem) (h : isBad bad = true) :
    (fetchLoop key (bad :: rest) c acc).1 = .failure := by
  obtain ⟨err, body⟩ := bad
  cases err with
  | true => simp [fetchLoop]
  | false =>
    cases body with
    | none => simp [isBad] at h
    | some b =>
      obtain ⟨res, cur⟩ := b
      cases res with
      | none => simp [fetchLoop]
      | some entries => simp [isBad] at h

/-- Running the loop across a block of pages that all keep it going: the
cursor advances to the most recently supplied value and the pages' items
are appended, after which the loop continues on the remaining responses. -/
lemma fetchLoop_fst_good (key : String) (good : List Response)
    (h : ∀ r ∈ good, pageContinues r = true) (tail : List Response) :
    ∀ (c : Option String) (acc : List ReadwiseItem),
      (fetchLoop key (good ++ tail) c acc).1 =
        (fetchLoop key tail (lastSupplied c good) (acc ++ pagesItems good)).1 := by
  induction good with
  | nil =>
    intro c acc
    simp [lastSupplied, pagesItems]
  | cons r good ih =>
    intro c acc
    have hr : pageContinues r = true := h r (by simp)
    rw [List.cons_append, fetchLoop_cons_continue key r _ c acc hr]
    rw [ih (fun x hx => h x (by simp [hx])) (cursorStep c r) (acc ++ pageItems r)]
    simp [lastSupplied, pagesItems]

/-- Complete classification of one loop iteration: either the page keeps the
loop going (recursing with the stepped cursor and extended accumulator),
or the iteration ends the whole run at once with a single recorded request
and an outcome other than `needsMoreResponses`. -/
lemma fetchLoop_cons_cases (key : String) (r : Response) (rs : List Response)
    (c : Option String) (acc : List ReadwiseItem) :
    (fetchLoop key (r :: rs) c acc =
        ((fetchLoop key rs (cursorStep c r) (acc ++ pageItems r)).1,
          ⟨"Token " ++ key, c⟩ :: (fetchLoop key rs (cursorStep c r) (acc ++ pageItems r)).2) ∧
      pageContinues r = true ∧ stops r = false) ∨
    (∃ res, fetchLoop key (r :: rs) c acc = (res, [⟨"Token " ++ key, c⟩]) ∧
      res ≠ .needsMoreResponses) := by
  obtain ⟨err, body⟩ := r
  cases err with
  | true => exact .inr ⟨.failure, by simp [fetchLoop], by simp⟩
  | false =>
    cases body with
    | none => exact .inr ⟨.raised .jsonDecodeError, by simp [fetchLoop], by simp⟩
    | some b =>
      obtain ⟨res, cur⟩ := b
      cases res with
      | none => exact .inr ⟨.failure, by simp [fetchLoop], by simp⟩
      | some entries =>
        cases hp : parseEntries entries with
        | error e => exact .inr ⟨.raised e, by simp [fetchLoop, hp], by simp⟩
        | ok items =>
          cases cur with
          | none =>
            refine .inl ⟨?_, ?_, ?_⟩
            · simp [fetchLoop, hp, cursorStep, pageItems]
            · simp [pageContinues, hp]
            · simp [stops]
          | some v =>
            cases v with
            | none =>
              exact .inr ⟨.success (acc ++ items),
                by simp [fetchLoop, hp], by simp⟩
            | some s =>
              cases hs : s == "" with
              | true =>
                exact .inr ⟨.success (acc ++ items),
                  by simp [fetchLoop, hp, hs], by simp⟩
              | false =>
                refine .inl ⟨?_, ?_, ?_⟩
                · simp [fetchLoop, hp, hs, cursorStep, pageItems]
                · simp [pageContinues, hp, hs]
                · simp [stops, hs]

/-- Every request the loop issues carries as its `pageCursor` parameter
exactly the `nextPageCursor` value most recently supplied by the responses
already consumed (starting from the cursor the loop was entered with). -/
lemma fetchLoop_req_cursor (key : String) :
    ∀ (rs : List Response) (c : Option String) (acc : List ReadwiseItem)
      (i : Nat) (req : Request),
      ((fetchLoop key rs c acc).2)[i]? = some req →
      req.pageCursor = lastSupplied c (rs.take i) := by
  intro rs
  induction rs with
  | nil =>
    intro c acc i req h
    cases i with
    | zero =>
      simp [fetchLoop] at h
      subst h
      simp [lastSupplied]
    | succ j => simp [fetchLoop] at h
  | cons r rest ih =>
    intro c acc i req h
    rcases fetchLoop_cons_cases key r rest c acc with ⟨heq, _, _⟩ | ⟨res, heq, _⟩
    · rw [heq] at h
      cases i with
      | zero =>
        simp at h
        subst h
        simp [lastSupplied]
      | succ j =>
        simp at h
        have := ih (cursorStep c r) (acc ++ pageItems r) j req h
        rw [this]
        simp [lastSupplied, List.take_succ_cons]
    · rw [heq] at h
      cases i with
      | zero =>
        simp at h
        subst h
        simp [lastSupplied]
      | succ j => simp at h

/-- A page that keeps the loop going never steps the cursor to the empty
string. -/
lemma cursorStep_ne_empty (c : Option String) (r : Response)
    (hc : c ≠ some "") (h : pageContinues r = true) :
    cursorStep c r ≠ some "" := by
  obtain ⟨err, body⟩ := r
  cases body with
  | none => simpa [cursorStep] using hc
  | some b =>
    obtain ⟨res, cur⟩ := b
    cases cur with
    | none => simpa [cursorStep] using hc
    | some v =>
      cases v with
      | none =>
        cases res with
        | none => simp [pageContinues] at h
        | some entries => simp [pageContinues] at h
      | some s =>
        simp [cursorStep]
        intro hs
        subst hs
        cases res with
        | none => simp [pageContinues] at h
        | some entries => simp [pageContinues] at h

/-- No request the loop issues carries an empty-string `pageCursor`,
provided the cursor the loop was entered with is not the empty string. -/
lemma fetchLoop_req_ne_empty (key : String) :
    ∀ (rs : List Response) (c : Option String) (acc : List ReadwiseItem),
      c ≠ some "" →
      ∀ req ∈ (fetchLoop key rs c acc).2, req.pageCursor ≠ some "" := by
  intro rs
  induction rs with
  | nil =>
    intro c acc hc req hmem
    simp [fetchLoop] at hmem
    subst hmem
    exact hc
  | cons r rest ih =>
    intro c acc hc req hmem
    rcases fetchLoop_cons_cases key r rest c acc with ⟨heq, hcont, _⟩ | ⟨res, heq, _⟩
    · rw [heq] at hmem
      rcases List.mem_cons.mp hmem with hreq | hreq
      · subst hreq
        exact hc
      · exact ih (cursorStep c r) (acc ++ pageItems r)
          (cursorStep_ne_empty c r hc hcont) req hreq
    · rw [heq] at hmem
      simp at hmem
      subst hmem
      exact hc

/-- If the response at index `i` satisfies one of the stopping conditions,
the run does not ask for responses beyond those supplied, and it issues at
most `i + 1` requests: the loop ends within that iteration. -/
lemma fetchLoop_stops_at (key : String) :
    ∀ (rs : List Response) (c : Option String) (acc : List ReadwiseItem)
      (i : Nat) (r : Response), rs[i]? = some r → stops r = true →
      (fetchLoop key rs c acc).1 ≠ .needsMoreResponses ∧
      (fetchLoop key rs c acc).2.length ≤ i + 1 := by
  intro rs
  induction rs with
  | nil =>
    intro c acc i r h
    simp at h
  | cons q rest ih =>
    intro c acc i r h hstop
    rcases fetchLoop_cons_cases key q rest c acc with ⟨heq, _, hq⟩ | ⟨res, heq, hne⟩
    · cases i with
      | zero =>
        simp at h
        subst h
        rw [hq] at hstop
        cases hstop
      | succ j =>
        simp at h
        have := ih (cursorStep c q) (acc ++ pageItems q) j r h hstop
        rw [heq]
        refine ⟨this.1, ?_⟩
        simpa using Nat.succ_le_succ this.2
    · rw [heq]
      exact ⟨hne, by simp⟩

/-- The outcome of the loop does not depend on the API key: the key is
copied into request headers only. -/
lemma fetchLoop_fst_key (k₁ k₂ : String) :
    ∀ (rs : List Response) (c : Option String) (acc : List ReadwiseItem),
      (fetchLoop k₁ rs c acc).1 = (fetchLoop k₂ rs c acc).1 := by
  intro rs
  induction rs with
  | nil => intro c acc; rfl
  | cons r rest ih =>
    intro c acc
    obtain ⟨err, body⟩ := r
    cases err with
    | true => rfl
    | false =>
      cases body with
      | none => rfl
      | some b =>
        obtain ⟨res, cur⟩ := b
        cases res with
        | none => rfl
        | some entries =>
          cases hp : parseEntries entries with
          | error e => simp [fetchLoop, hp]
          | ok items =>
            cases cur with
            | none => simp [fetchLoop, hp]; exact ih _ _
            | some v =>
              cases v with
              | none => simp [fetchLoop, hp]
              | some s =>
                cases hs : s == "" with
                | true => simp [fetchLoop, hp, hs]
                | false => simp [fetchLoop, hp, hs]; exact ih _ _

/-- C1: the claim fails on the code.  On a single 200-status response whose
body has a `results` field and no `nextPageCursor` field, the loop does not
treat the page as terminal: the `parsed_all_results` flag is updated only
when the `nextPageCursor` key is present, so it stays false and the client
issues a second request with the unchanged (absent) cursor instead of
returning that page's items.  The run exhausts the supplied single response
and has issued two requests. -/
theorem C1_absent_cursor_does_not_stop :
    (get_list_of_all_articles "k"
        [⟨false, some ⟨some [⟨some "1", some "u1", none⟩], none⟩⟩]).1 =
      .needsMoreResponses ∧
    (get_list_of_all_articles "k"
        [⟨false, some ⟨some [⟨some "1", some "u1", none⟩], none⟩⟩]).2.length = 2 := by
  exact ⟨rfl, rfl⟩

/-- C2 counterexample: on a 200-status response whose body is not valid
JSON, `get_list_of_all_articles` does not return the `None` failure marker:
the JSON decode exception raised by `response.json()` escapes the function
(there is no try/except around it). -/
theorem C2_counterexample_invalid_json :
    (get_list_of_all_articles "k" [⟨false, none⟩]).1 = .raised .jsonDecodeError ∧
    (get_list_of_all_articles "k" [⟨false, none⟩]).1 ≠ .failure := by
  exact ⟨rfl, by decide⟩

/-- C2 amended: for every response with a success status whose body is not
valid JSON, reached after any number of pages that keep the loop going, the
JSON decode exception escapes `get_list_of_all_articles` rather than the
function returning the failure marker `None`. -/
theorem C2_invalid_json_raises (key : String) (good rest : List Response)
    (hg : ∀ r ∈ good, pageContinues r = true) :
    (get_list_of_all_articles key (good ++ ⟨false, none⟩ :: rest)).1 =
      .raised .jsonDecodeError := by
  unfold get_list_of_all_articles
  rw [fetchLoop_fst_good key good hg (⟨false, none⟩ :: rest) none []]
  rfl

/-- C2 witness: the amended statement applied after one successful page. -/
theorem C2_invalid_json_raises_witness :
    (∀ r ∈ ([⟨false, some ⟨some [⟨some "1", some "u1", none⟩], some (some "c1")⟩⟩] :
        List Response), pageContinues r = true) ∧
    (get_list_of_all_articles "k"
        ([⟨false, some ⟨some [⟨some "1", some "u1", none⟩], some (some "c1")⟩⟩] ++
          (⟨false, none⟩ : Response) :: [])).1 = .raised .jsonDecodeError :=
  ⟨by decide, C2_invalid_json_raises "k" _ [] (by decide)⟩

/-- C3: if the loop, after any block of pages that keep it going, meets a
response with a non-success status or a parsed body lacking `results`, the
function returns `None` — it never returns the items accumulated from the
earlier pages. -/
theorem C3_error_discards_accumulated_items (key : String)
    (good : List Response) (bad : Response) (rest : List Response)
    (hg : ∀ r ∈ good, pageContinues r = true) (hb : isBad bad = true) :
    (get_list_of_all_articles key (good ++ bad :: rest)).1 = .failure := by
  unfold get_list_of_all_articles
  rw [fetchLoop_fst_good key good hg (bad :: rest) none []]
  exact fetchLoop_bad key bad rest _ _ hb

/-- C3 witness: one successful page followed by a 500-style error page
yields `None`, not the first page's item. -/
theorem C3_error_discards_accumulated_items_witness :
    (∀ r ∈ ([⟨false, some ⟨some [⟨some "1", some "u1", none⟩], some (some "c1")⟩⟩] :
        List Response), pageContinues r = true) ∧
    isBad ⟨true, none⟩ = true ∧
    (get_list_of_all_articles "k"
        ([⟨false, some ⟨some [⟨some "1", some "u1", none⟩], some (some "c1")⟩⟩] ++
          (⟨true, none⟩ : Response) :: [])).1 = .failure :=
  ⟨by decide, by decide,
    C3_error_discards_accumulated_items "k" _ _ [] (by decide) (by decide)⟩

/-- C4: a successful page whose `nextPageCursor` is present with a null or
empty-string value stops pagination in that same iteration, but only after
appending that page's own items: the result is the concatenation of the
prior pages' items with the terminal page's items, and any further supplied
responses are never requested. -/
theorem C4_terminal_cursor_appends_then_stops (key : String)
    (good : List Response) (last : Response) (rest : List Response)
    (hg : ∀ r ∈ good, pageContinues r = true) (hl : terminalPage last = true) :
    (get_list_of_all_articles key (good ++ last :: rest)).1 =
      .success (pagesItems good ++ pageItems last) := by
  unfold get_list_of_all_articles
  rw [fetchLoop_fst_good key good hg (last :: rest) none []]
  rw [fetchLoop_terminal key last rest _ _ hl]
  simp

/-- C4 witness: a page with cursor "c1" and two items, then a page with
`nextPageCursor: ""` and one item, then an error page that is never
reached; the result is the three items. -/
theorem C4_terminal_cursor_appends_then_stops_witness :
    (∀ r ∈ ([⟨false, some ⟨some [⟨some "1", some "u1", none⟩,
        ⟨some "2", some "u2", none⟩], some (some "c1")⟩⟩] : List Response),
      pageContinues r = true) ∧
    terminalPage ⟨false, some ⟨some [⟨some "3", some "u3", none⟩], some (some "")⟩⟩ = true ∧
    (get_list_of_all_articles "k"
        ([⟨false, some ⟨some [⟨some "1", some "u1", none⟩,
            ⟨some "2", some "u2", none⟩], some (some "c1")⟩⟩] ++
          (⟨false, some ⟨some [⟨some "3", some "u3", none⟩], some (some "")⟩⟩ : Response) ::
            [⟨true, none⟩])).1 =
      .success
        (pagesItems [⟨false, some ⟨some [⟨some "1", some "u1", none⟩,
            ⟨some "2", some "u2", none⟩], some (some "c1")⟩⟩] ++
          pageItems ⟨false, some ⟨some [⟨some "3", some "u3", none⟩], some (some "")⟩⟩) :=
  ⟨by decide, by decide,
    C4_terminal_cursor_appends_then_stops "k" _ _ [⟨true, none⟩] (by decide) (by decide)⟩

/-- C5: the claim fails on the code at its own example.  On the spec's
scenario — page 1 with cursor "c1" and one item, page 2 with one item and
no `nextPageCursor` field — the loop does not stop after page 2: it issues
a third request (with cursor "c1" unchanged) rather than returning the two
items in page order. -/
theorem C5_scenario_requests_a_third_page :
    (get_list_of_all_articles "k"
        [⟨false, some ⟨some [⟨some "1", some "u1", none⟩], some (some "c1")⟩⟩,
         ⟨false, some ⟨some [⟨some "2", some "u2", some "T"⟩], none⟩⟩]).1 =
      .needsMoreResponses ∧
    (get_list_of_all_articles "k"
        [⟨false, some ⟨some [⟨some "1", some "u1", none⟩], some (some "c1")⟩⟩,
         ⟨false, some ⟨some [⟨some "2", some "u2", some "T"⟩], none⟩⟩]).1 ≠
      .success [⟨"1", "u1", none⟩, ⟨"2", "u2", some "T"⟩] ∧
    (get_list_of_all_articles "k"
        [⟨false, some ⟨some [⟨some "1", some "u1", none⟩], some (some "c1")⟩⟩,
         ⟨false, some ⟨some [⟨some "2", some "u2", some "T"⟩], none⟩⟩]).2.length = 3 := by
  exact ⟨rfl, by decide, rfl⟩

/-- C6: a results entry with `id` and `url` but no usable `title` (absent or
null — Python's `item.get("title", None)` yields `None` in both cases)
parses to a `ReadwiseItem` with the `id` and `url` copied verbatim and an
absent title, and the fetch succeeds rather than failing. -/
theorem C6_missing_title_parses_to_none (key i u : String) :
    parseEntry ⟨some i, some u, none⟩ = .ok ⟨i, u, none⟩ ∧
    (get_list_of_all_articles key
        [⟨false, some ⟨some [⟨some i, some u, none⟩], some (some "")⟩⟩]).1 =
      .success [⟨i, u, none⟩] :=
  ⟨rfl, rfl⟩

/-- C8: a successful page containing a results entry lacking the `id` key
(or the `url` key) makes the item construction raise `KeyError`, which
escapes the function — the clean failure marker `None` is not returned. -/
theorem C8_missing_id_or_url_raises_keyerror (key u i₂ : String)
    (t : Option String) (cur : Option (Option String)) (rest : List Response) :
    ((get_list_of_all_articles key
        (⟨false, some ⟨some [⟨none, some u, t⟩], cur⟩⟩ :: rest)).1 =
          .raised .keyError ∧
      (get_list_of_all_articles key
        (⟨false, some ⟨some [⟨none, some u, t⟩], cur⟩⟩ :: rest)).1 ≠ .failure) ∧
    ((get_list_of_all_articles key
        (⟨false, some ⟨some [⟨some i₂, none, t⟩], cur⟩⟩ :: rest)).1 =
          .raised .keyError ∧
      (get_list_of_all_articles key
        (⟨false, some ⟨some [⟨some i₂, none, t⟩], cur⟩⟩ :: rest)).1 ≠ .failure) := by
  have h₁ : (get_list_of_all_articles key
      (⟨false, some ⟨some [⟨none, some u, t⟩], cur⟩⟩ :: rest)).1 =
        .raised .keyError := rfl
  have h₂ : (get_list_of_all_articles key
      (⟨false, some ⟨some [⟨some i₂, none, t⟩], cur⟩⟩ :: rest)).1 =
        .raised .keyError := rfl
  exact ⟨⟨h₁, by simp [h₁]⟩, ⟨h₂, by simp [h₂]⟩⟩

/-- C7: the client never synthesizes or mutates cursor values.  Every
request it issues carries as `pageCursor` exactly the `nextPageCursor`
value most recently supplied by the responses already consumed; the first
request carries no `pageCursor` parameter, and no request ever carries an
empty-string cursor. -/
theorem C7_cursor_threading (key : String) (rs : List Response) (i : Nat)
    (req : Request) (h : ((get_list_of_all_articles key rs).2)[i]? = some req) :
    req.pageCursor = lastSupplied none (rs.take i) ∧
    (i = 0 → req.pageCursor = none) ∧
    req.pageCursor ≠ some "" := by
  refine ⟨fetchLoop_req_cursor key rs none [] i req h, ?_, ?_⟩
  · intro hi
    subst hi
    have h0 := fetchLoop_req_cursor key rs none [] 0 req h
    simpa [lastSupplied] using h0
  · have hmem : req ∈ (fetchLoop key rs none []).2 := by
      have hlt := List.getElem?_eq_some.mp h
      obtain ⟨hl, hget⟩ := hlt
      exact hget ▸ List.getElem_mem hl
    exact fetchLoop_req_ne_empty key rs none [] (by simp) req hmem

/-- C7 witness: on a two-page run the second request carries exactly the
cursor "c1" supplied by the first response. -/
theorem C7_cursor_threading_witness :
    (((get_list_of_all_articles "k"
        [⟨false, some ⟨some [⟨some "1", some "u1", none⟩], some (some "c1")⟩⟩,
         ⟨false, some ⟨some [⟨some "2", some "u2", none⟩], some none⟩⟩]).2)[1]? =
      some ⟨"Token k", some "c1"⟩) ∧
    ((⟨"Token k", some "c1"⟩ : Request).pageCursor =
        lastSupplied none
          (([⟨false, some ⟨some [⟨some "1", some "u1", none⟩], some (some "c1")⟩⟩,
             ⟨false, some ⟨some [⟨some "2", some "u2", none⟩], some none⟩⟩] :
            List Response).take 1) ∧
      (1 = 0 → (⟨"Token k", some "c1"⟩ : Request).pageCursor = none) ∧
      (⟨"Token k", some "c1"⟩ : Request).pageCursor ≠ some "") :=
  ⟨by decide,
    C7_cursor_threading "k"
      [⟨false, some ⟨some [⟨some "1", some "u1", none⟩], some (some "c1")⟩⟩,
       ⟨false, some ⟨some [⟨some "2", some "u2", none⟩], some none⟩⟩]
      1 ⟨"Token k", some "c1"⟩ (by decide)⟩

/-- C9: if the response at index i has a non-success status, a parsed body
lacking `results`, or a `nextPageCursor` present with null or empty-string
value, the run stops within that iteration: it never asks for responses
beyond those supplied and issues at most i + 1 requests. -/
theorem C9_stop_conditions_end_loop (key : String) (rs : List Response)
    (i : Nat) (r : Response) (h : rs[i]? = some r) (hstop : stops r = true) :
    (get_list_of_all_articles key rs).1 ≠ .needsMoreResponses ∧
    (get_list_of_all_articles key rs).2.length ≤ i + 1 :=
  fetchLoop_stops_at key rs none [] i r h hstop

/-- C9 witness: a good page followed by an error page at index 1 ends the
run with at most two requests. -/
theorem C9_stop_conditions_end_loop_witness :
    (([⟨false, some ⟨some [⟨some "1", some "u1", none⟩], some (some "c1")⟩⟩,
        ⟨true, none⟩] : List Response)[1]? = some ⟨true, none⟩) ∧
    stops ⟨true, none⟩ = true ∧
    ((get_list_of_all_articles "k"
        [⟨false, some ⟨some [⟨some "1", some "u1", none⟩], some (some "c1")⟩⟩,
         ⟨true, none⟩]).1 ≠ .needsMoreResponses ∧
      (get_list_of_all_articles "k"
        [⟨false, some ⟨some [⟨some "1", some "u1", none⟩], some (some "c1")⟩⟩,
         ⟨true, none⟩]).2.length ≤ 1 + 1) :=
  ⟨by decide, by decide,
    C9_stop_conditions_end_loop "k"
      [⟨false, some ⟨some [⟨some "1", some "u1", none⟩], some (some "c1")⟩⟩,
       ⟨true, none⟩]
      1 ⟨true, none⟩ (by decide) (by decide)⟩

/-- C10: the outcome of `get_list_of_all_articles` is a pure function of
the server's response sequence: for a fixed response sequence any two runs
agree, and the outcome does not depend on the API key, which is copied
into request headers only. -/
theorem C10_outcome_depends_only_on_responses (k₁ k₂ : String)
    (rs : List Response) :
    (get_list_of_all_articles k₁ rs).1 = (get_list_of_all_articles k₂ rs).1 :=
  fetchLoop_fst_key k₁ k₂ rs none []

end Readwise
